import Mathlib

/-!
Shallow embedding of the study-rag-service core (app/ingest.py, app/vector_store.py,
app/api.py) and proofs about it.

Conventions used throughout:
* Python strings are modelled by Lean `String` (operated on through `String.data`
  where character-level work is needed).
* Embedding vectors are modelled as `List ℚ`; the FAISS flat-L2 index returns
  squared L2 distances, which we keep as `ℚ` (for rationals the squared distance
  induces exactly the same ordering as the true L2 distance).
* Fallible Python code (raised exceptions) is modelled with `Except`.
* The process-wide singletons (`_vector_store` plus its on-disk copy) are
  modelled by an explicit `AppState` threaded through the operations.
-/

namespace StudyRag

/-- Python `str.lower()` as applied to file suffixes (character-wise lowering). -/
def pyLower (s : String) : String :=
  String.mk (s.data.map Char.toLower)

/-- Python `str.strip()`: remove leading and trailing whitespace characters. -/
def pyStrip (s : String) : String :=
  String.mk (((s.data.dropWhile Char.isWhitespace).reverse.dropWhile Char.isWhitespace).reverse)

/-- Test whether `pat` occurs at the head of `l` (list version of startswith). -/
def startsWithList : List Char → List Char → Bool
  | [], _ => true
  | _ :: _, [] => false
  | p :: ps, c :: cs => p = c && startsWithList ps cs

/-- Test whether `pat` occurs anywhere inside `text` (Python `re.search` on the
escaped literal separator, as used by the splitter's separator-selection loop). -/
def containsPat (text pat : List Char) : Bool :=
  match text with
  | [] => startsWithList pat []
  | _ :: rest => startsWithList pat text || containsPat rest pat

/-- Index of the last occurrence of a dot, as in Python `str.rfind`. -/
def rfindDot : List Char → Option Nat
  | [] => none
  | c :: rest =>
    match rfindDot rest with
    | some i => some (i + 1)
    | none => if c = '.' then some 0 else none

/-- Final path component, as in `pathlib.PurePath.name` (the part after the last slash). -/
def path_name (path : String) : String :=
  String.mk ((path.data.reverse.takeWhile (fun c => ¬ c = '/')).reverse)

/-- Python `pathlib.PurePath.suffix`: the extension of the final component,
including the leading dot; empty when there is no dot, when the only dot leads
the name, or when the dot is the final character. -/
def path_suffix (path : String) : String :=
  let name := path_name path
  match rfindDot name.data with
  | some i => if 0 < i ∧ i < name.length - 1 then String.mk (name.data.drop i) else ""
  | none => ""

/-- `config.KNOWLEDGE_DIR`, the knowledge root all ingested paths live under. -/
def KNOWLEDGE_DIR : String := "data/knowledge"

/-- Python `str(path.relative_to(KNOWLEDGE_DIR))` as used by `load_file_as_documents`.
The `ValueError` branch for a path not under the knowledge root is not modelled:
the paths considered by the claims are all under the root. -/
def relative_to_knowledge (path : String) : String :=
  if startsWithList (KNOWLEDGE_DIR ++ "/").data path.data then
    String.mk (path.data.drop (KNOWLEDGE_DIR.length + 1))
  else path

/-- A stored document fragment: `langchain_core.documents.Document` restricted to
the closed metadata record this service uses (`page_content`, `source`, `chunk_id`). -/
structure Fragment where
  text : String
  source : String
  chunk_id : Nat
deriving DecidableEq

/-- Modelled from the spec: the Vector Index (faiss `IndexFlatL2` plus the
langchain `FAISS` docstore and `index_to_docstore_id` mapping).  `d` is the
dimension fixed at creation; `entries` holds, in insertion order, each stored
embedding vector together with its fragment, so the internal id of an entry is
its position in the list and `ntotal = entries.length`. -/
structure VectorStore where
  d : Nat
  entries : List (List ℚ × Fragment)
deriving DecidableEq

/-- `_create_empty_vector_store`, after the dimension has been determined
(probed from the embedding model, or the configured fallback): a fresh
`IndexFlatL2 dim` with an empty docstore and empty id mapping. -/
def create_empty_vector_store (dim : Nat) : VectorStore :=
  { d := dim, entries := [] }

/-- Modelled from the spec: squared L2 distance, the score faiss `IndexFlatL2`
computes for searches.  Ordering by squared distance coincides with ordering by
L2 distance. -/
def dist2 (u v : List ℚ) : ℚ :=
  (List.zipWith (fun a b => (a - b) * (a - b)) u v).sum

/-- Modelled from the spec: batch insertion into the index (faiss
`IndexFlatL2.add` through langchain `FAISS.__add`).  faiss validates the shape
of the whole batch against the index dimension before anything is inserted, so
a batch containing a vector of the wrong length is rejected as a whole. -/
def add_vectors (vs : VectorStore) (batch : List (List ℚ × Fragment)) :
    Except String VectorStore :=
  if batch.all (fun p => p.1.length = vs.d) then
    Except.ok { vs with entries := vs.entries ++ batch }
  else
    Except.error "assert d == x.shape[1]"

/-- Modelled from the spec: faiss flat search.  Every stored vector is scored
against the query, results are ordered ascending by (squared) L2 distance and
the first `k` are returned; ids of entries are their insertion positions. -/
def search_index (vs : VectorStore) (q : List ℚ) (k : Nat) : List (Nat × ℚ) :=
  ((vs.entries.enum.map (fun p => (p.1, dist2 q p.2.1))).insertionSort
    (fun a b => a.2 ≤ b.2)).take k

/-- Modelled from the spec: the persisted store directory.  `absent` models a
missing `data/vector_store` directory, `corrupt` a directory whose contents
`FAISS.load_local` fails to deserialize (the `junk` payload stands for the
arbitrary broken bytes), and `valid` a directory holding a serialized index. -/
inductive Disk where
  | absent : Disk
  | corrupt : Nat → Disk
  | valid : VectorStore → Disk
deriving DecidableEq

/-- `_load_vector_store`: returns `none` when the directory does not exist, and
also `none` when deserialization raises — the `except Exception` branch swallows
the error and reports absence. -/
def load_vector_store : Disk → Option VectorStore
  | Disk.absent => none
  | Disk.corrupt _ => none
  | Disk.valid vs => some vs

/-- `get_vector_store`: the lazily-constructed process singleton.  On a miss it
loads from disk; when loading reports absence it fabricates a brand-new empty
index (of the probed-or-fallback dimension `dim`). -/
def get_vector_store (dim : Nat) (disk : Disk) : VectorStore :=
  match load_vector_store disk with
  | some vs => vs
  | none => create_empty_vector_store dim

/-- The mutable process state the pipeline operates on: the in-memory singleton
index and the persisted store directory. -/
structure AppState where
  vs : VectorStore
  disk : Disk
deriving DecidableEq

/-- `save_vector_store`: serializes the in-memory index over the store directory. -/
def save_vector_store (st : AppState) : AppState :=
  { st with disk := Disk.valid st.vs }

/-- `count_documents_in_vector_store`: `vs.index.ntotal`. -/
def count_documents_in_vector_store (vs : VectorStore) : Nat :=
  vs.entries.length

/-- `add_documents_to_vector_store`: returns unchanged on an empty batch,
otherwise embeds the documents, inserts them, and (when `persist` is set)
synchronously saves the store.  A raised dimension mismatch propagates with no
state change. -/
def add_documents_to_vector_store (embed : String → List ℚ) (st : AppState)
    (documents : List Fragment) (persist : Bool) : Except String AppState :=
  if documents.isEmpty then Except.ok st
  else
    match add_vectors st.vs (documents.map (fun doc => (embed doc.text, doc))) with
    | Except.error e => Except.error e
    | Except.ok vs' =>
      let st' : AppState := { st with vs := vs' }
      Except.ok (if persist then save_vector_store st' else st')

/-- Runs `add_documents_to_vector_store` as a state transition: a raised error
leaves the process state (index and disk) as it was. -/
def run_add_documents (embed : String → List ℚ) (st : AppState)
    (documents : List Fragment) : AppState :=
  match add_documents_to_vector_store embed st documents true with
  | Except.ok st' => st'
  | Except.error _ => st

/-- Default entry used to model the docstore lookup (ids returned by a search
are always in range, so the default is never produced). -/
def defaultEntry : List ℚ × Fragment :=
  ([], { text := "", source := "", chunk_id := 0 })

/-- langchain `FAISS.similarity_search`: embed the query, search the index, map
each returned internal id back to its stored fragment. -/
def similarity_search (embed : String → List ℚ) (vs : VectorStore)
    (query : String) (k : Nat) : List Fragment :=
  (search_index vs (embed query) k).map (fun p => (vs.entries.getD p.1 defaultEntry).2)

/-- `search_vector_store`: thin wrapper over `similarity_search`. -/
def search_vector_store (embed : String → List ℚ) (vs : VectorStore)
    (query : String) (k : Nat) : List Fragment :=
  similarity_search embed vs query k

/-- One retrieved chunk of a query response (api.RetrievedChunk). -/
structure RetrievedChunk where
  source : String
  chunk_id : Nat
  text : String
deriving DecidableEq

/-- A query response (api.QueryResponse). -/
structure QueryResponse where
  answer : String
  retrieved : List RetrievedChunk
deriving DecidableEq

/-- The sentinel answer `run_rag_query` produces when the search returns no
documents. -/
def emptyIndexSentinel : String :=
  "No documents in the index yet. Ingest something first."

/-- `run_rag_query` (api.py).  The second component of the result counts the
`similarity_search` invocations performed (each of which embeds the question):
the source calls `vs.similarity_search(question, k=k)` unconditionally, before
testing whether the result list is empty, so the count is always 1. -/
def run_rag_query (embed : String → List ℚ) (st : AppState)
    (question : String) (k : Nat) : QueryResponse × Nat :=
  let vs := st.vs
  let docs := similarity_search embed vs question k
  let searchCalls := 1
  if docs.isEmpty then
    ({ answer := emptyIndexSentinel, retrieved := [] }, searchCalls)
  else
    let snippets := docs.enum.map
      (fun p => "[" ++ toString (p.1 + 1) ++ "] " ++ pyStrip p.2.text)
    let retrieved := docs.map
      (fun doc => { source := doc.source, chunk_id := doc.chunk_id,
                    text := pyStrip doc.text : RetrievedChunk })
    let answer := "Top matching chunks from your library:\n\n"
      ++ String.intercalate "\n\n" snippets
      ++ "\n\n(Next step: call an LLM service to turn this into a narrative answer.)"
    ({ answer := answer, retrieved := retrieved }, searchCalls)

/-- Chunking config from ingest.py. -/
def CHUNK_SIZE : Nat := 1000

/-- Chunking config from ingest.py. -/
def CHUNK_OVERLAP : Nat := 200

/-- The separator list handed to the splitter in `_split_text`. -/
def SEPARATORS : List String := ["\n\n", "\n", " ", ""]

/-- Python `sep.join(xs)`: the pieces with the separator interspersed. -/
def pyJoin (sep : String) (xs : List String) : String :=
  String.mk (((xs.intersperse sep).map String.data).flatten)

/-- Modelled from the spec: joining of accumulated pieces into one fragment
(the splitter's `_join_docs`): join with the separator, strip whitespace, and
drop the fragment when nothing remains. -/
def join_docs (docs : List String) (sep : String) : Option String :=
  let text := pyStrip (pyJoin sep docs)
  if text = "" then none else some text

/-- Modelled from the spec: the overlap-popping inner loop of the splitter's
`_merge_splits`.  Pieces are dropped from the front of the running window until
its total length is within the overlap budget and admitting the next piece
would not exceed the chunk size.  `total` always equals the joined length of
the window, so the window is empty exactly when `total = 0`. -/
def popOverlap (chunkSize overlap sepLen lenD : Nat) :
    List String → Nat → List String × Nat
  | [], total => ([], total)
  | c :: rest, total =>
    if total > overlap ∨ (total + lenD + sepLen > chunkSize ∧ total > 0) then
      popOverlap chunkSize overlap sepLen lenD rest
        (total - (c.length + (if rest.isEmpty then 0 else sepLen)))
    else (c :: rest, total)

/-- Modelled from the spec: one iteration of the splitter's `_merge_splits`
loop, accumulating (emitted fragments, current window, window length). -/
def mergeStep (chunkSize overlap : Nat) (sep : String)
    (acc : List String × List String × Nat) (d : String) :
    List String × List String × Nat :=
  let docs := acc.1
  let cur := acc.2.1
  let total := acc.2.2
  let lenD := d.length
  let sepLen := sep.length
  let next :=
    if total + lenD + (if cur.isEmpty then 0 else sepLen) > chunkSize then
      if cur.isEmpty then (docs, cur, total)
      else
        let docs' :=
          match join_docs cur sep with
          | some doc => docs ++ [doc]
          | none => docs
        let popped := popOverlap chunkSize overlap sepLen lenD cur total
        (docs', popped.1, popped.2)
    else (docs, cur, total)
  let docs' := next.1
  let cur' := next.2.1 ++ [d]
  let total' := next.2.2 + lenD + (if cur'.length > 1 then sepLen else 0)
  (docs', cur', total')

/-- Modelled from the spec: the splitter's `_merge_splits` — greedily merge
already-small pieces into fragments of at most `chunkSize` characters, sliding
an overlap of at most `overlap` characters from the tail of each emitted
fragment into the next one. -/
def merge_splits (chunkSize overlap : Nat) (splits : List String)
    (sep : String) : List String :=
  let folded := splits.foldl (mergeStep chunkSize overlap sep) ([], [], 0)
  match join_docs folded.2.1 sep with
  | some doc => folded.1 ++ [doc]
  | none => folded.1

/-- Splitting a character list on every occurrence of a non-empty literal
pattern, keeping empty pieces (Python `str.split(sep)` semantics).  `fuel`
bounds the traversal by the text length so the recursion is structural; it is
never exhausted when called with `fuel = text.length`. -/
def split_on_chars (pat : List Char) : Nat → List Char → List Char →
    List (List Char)
  | 0, text, acc => [acc.reverse ++ text]
  | fuel + 1, text, acc =>
    match text with
    | [] => [acc.reverse]
    | c :: rest =>
      if startsWithList pat text ∧ ¬ pat = [] then
        acc.reverse :: split_on_chars pat fuel (text.drop pat.length) []
      else
        split_on_chars pat fuel rest (c :: acc)

/-- Python `text.split(sep)` for a non-empty separator. -/
def py_split (text sep : String) : List String :=
  (split_on_chars sep.data text.data.length text.data []).map String.mk

/-- Modelled from the spec: `_split_text_with_regex` with `keep_separator`
(the recursive splitter's default): split on the literal separator, keep each
separator glued to the front of the piece that follows it, drop empty pieces.
The empty separator falls back to character-level pieces. -/
def split_text_keeping_sep (text sep : String) : List String :=
  (if sep = "" then text.data.map (fun c => String.mk [c])
   else
     match py_split text sep with
     | [] => []
     | p :: ps => p :: ps.map (fun q => sep ++ q)).filter (fun s => ¬ s = "")

/-- Modelled from the spec: the separator-selection loop at the head of the
recursive `_split_text`: pick the first separator of the list that occurs in
the text (the empty separator always matches), and return it together with the
remaining finer separators. -/
def choose_sep (text : String) : List String → String × List String
  | [] => ("", [])
  | s :: rest =>
    if s = "" then ("", [])
    else if containsPat text.data s.data then (s, rest)
    else choose_sep text rest

/-- Modelled from the spec: the piece-processing loop of the recursive
splitter's `_split_text`.  Pieces under the chunk size are collected; a piece
at or over the chunk size first flushes the collected run through the merger
and is then either emitted whole (`noNewSeps`, the separator list is
exhausted) or re-split with the finer separators (`recurse`).  The
accumulator is the pair (final chunks so far, collected small pieces). -/
def split_loop (chunkSize overlap : Nat) (recurse : String → List String)
    (noNewSeps : Bool) : List String → List String × List String →
    List String × List String
  | [], acc => acc
  | s :: rest, acc =>
    if s.length < chunkSize then
      split_loop chunkSize overlap recurse noNewSeps rest (acc.1, acc.2 ++ [s])
    else
      let finalChunks :=
        if acc.2.isEmpty then acc.1
        else acc.1 ++ merge_splits chunkSize overlap acc.2 ""
      if noNewSeps then
        split_loop chunkSize overlap recurse noNewSeps rest (finalChunks ++ [s], [])
      else
        split_loop chunkSize overlap recurse noNewSeps rest
          (finalChunks ++ recurse s, [])

/-- The tail of the recursive splitter's `_split_text`: flush the still-collected
run of small pieces through the merger and append the result. -/
def split_finish (chunkSize overlap : Nat)
    (folded : List String × List String) : List String :=
  if folded.2.isEmpty then folded.1
  else folded.1 ++ merge_splits chunkSize overlap folded.2 ""

/-- Modelled from the spec: the recursive splitter (`RecursiveCharacterText`
splitter `_split_text`).  Pieces still over the chunk size are re-split with
the finer separators; runs of small pieces are merged with overlap.  Because
`keep_separator` is set, merging always uses the empty separator.  The `fuel`
argument bounds the recursion depth by the length of the separator list; it is
never exhausted for the fixed four-element list used by `split_text`. -/
def split_text_rec (chunkSize overlap : Nat) :
    Nat → List String → String → List String
  | 0, _, text => [text]
  | fuel + 1, seps, text =>
    split_finish chunkSize overlap
      (split_loop chunkSize overlap
        (split_text_rec chunkSize overlap fuel (choose_sep text seps).2)
        (choose_sep text seps).2.isEmpty
        (split_text_keeping_sep text (choose_sep text seps).1) ([], []))

/-- `_split_text` (ingest.py): chunk raw text with the recursive splitter at
the configured chunk size, overlap and separator list. -/
def split_text (text : String) : List String :=
  split_text_rec CHUNK_SIZE CHUNK_OVERLAP (SEPARATORS.length + 1) SEPARATORS text

/-- The error taxonomy raised by the ingestion pipeline. -/
inductive IngestError where
  | unsupportedFileType : String → IngestError
  | readFailure : String → String → IngestError
  | dimMismatch : Nat → IngestError
deriving DecidableEq

/-- The document-building loop of `load_file_as_documents`: enumerate the
chunks, skip a chunk whose stripped text is empty, and give each kept chunk its
enumeration position as `chunk_id`. -/
def docs_loop (src : String) : List (Nat × String) → List Fragment
  | [] => []
  | (i, c) :: rest =>
    if pyStrip c = "" then docs_loop src rest
    else { text := c, source := src, chunk_id := i } :: docs_loop src rest

/-- `load_file_as_documents` (ingest.py).  `fs` abstracts the two readers
(`_read_text_file` for .txt/.md, `_read_pdf_file` for .pdf), either of which
may raise (modelled as `Except.error` with the raised message). -/
def load_file_as_documents (fs : String → Except String String) (path : String) :
    Except IngestError (List Fragment) :=
  if pyLower (path_suffix path) = ".txt" ∨ pyLower (path_suffix path) = ".md" ∨
      pyLower (path_suffix path) = ".pdf" then
    match fs path with
    | Except.error e => Except.error (IngestError.readFailure path e)
    | Except.ok raw =>
      Except.ok (docs_loop (relative_to_knowledge path) (split_text raw).enum)
  else Except.error (IngestError.unsupportedFileType (pyLower (path_suffix path)))

/-- `ingest_path` (ingest.py): load the file into documents, add them to the
singleton store with `persist=True`, and return the number of chunks added
together with the updated process state. -/
def ingest_path (embed : String → List ℚ) (fs : String → Except String String)
    (st : AppState) (path : String) : Except IngestError (Nat × AppState) :=
  match load_file_as_documents fs path with
  | Except.error e => Except.error e
  | Except.ok docs =>
    match add_documents_to_vector_store embed st docs true with
    | Except.error _ => Except.error (IngestError.dimMismatch st.vs.d)
    | Except.ok st' => Except.ok (docs.length, st')

/-- Runs `ingest_path` as a state transition: a raised error leaves the process
state unchanged (the add and the save were never reached). -/
def run_ingest (embed : String → List ℚ) (fs : String → Except String String)
    (st : AppState) (path : String) : AppState :=
  match ingest_path embed fs st path with
  | Except.ok r => r.2
  | Except.error _ => st

/-- One entry of the `root.rglob("*")` walk: a path and whether it is a regular
file. -/
structure DirEntry where
  path : String
  is_file : Bool
deriving DecidableEq

/-- `ingest_directory` (ingest.py).  Entries that are not regular files or do
not carry a supported extension are skipped.  Each remaining file is handed to
`ingest_path` with no exception handling, so the first failure propagates to
the caller — remaining entries are not processed, the accumulated total is
lost, and the process state keeps only the mutations of the files already
ingested.  The result is the propagated error or a bare total count; no
per-file error list exists in the source. -/
def ingest_directory (embed : String → List ℚ) (fs : String → Except String String)
    (st : AppState) : List DirEntry → Except IngestError Nat × AppState
  | [] => (Except.ok 0, st)
  | e :: rest =>
    if e.is_file = false then ingest_directory embed fs st rest
    else if ¬ (pyLower (path_suffix e.path) ∈ [".txt", ".md", ".pdf"]) then
      ingest_directory embed fs st rest
    else
      match ingest_path embed fs st e.path with
      | Except.error err => (Except.error err, st)
      | Except.ok r =>
        match ingest_directory embed fs r.2 rest with
        | (Except.error err, st'') => (Except.error err, st'')
        | (Except.ok m, st'') => (Except.ok (r.1 + m), st'')

/-- The states of the Vector Index reachable through its interface: created
empty at a fixed dimension, then grown by successful batch adds. -/
inductive Reachable (D : Nat) : VectorStore → Prop where
  | init : Reachable D (create_empty_vector_store D)
  | add (vs : VectorStore) (batch : List (List ℚ × Fragment)) (vs' : VectorStore) :
      Reachable D vs → add_vectors vs batch = Except.ok vs' → Reachable D vs'

/-- Consistency of the process state with its persisted store: either the disk
holds exactly the in-memory index, or the in-memory index is the virgin empty
index and the disk still reports absence (`_create_empty_vector_store` makes
the directory but does not save).  Every state the pipeline reaches satisfies
this. -/
def diskConsistent (D : Nat) (st : AppState) : Prop :=
  st.disk = Disk.valid st.vs ∨
    (st.vs = create_empty_vector_store D ∧ load_vector_store st.disk = none)

instance : IsTotal (Nat × ℚ) (fun a b => a.2 ≤ b.2) :=
  ⟨fun a b => le_total a.2 b.2⟩

instance : IsTrans (Nat × ℚ) (fun a b => a.2 ≤ b.2) :=
  ⟨fun _ _ _ h1 h2 => le_trans h1 h2⟩

/-- A string of `n` letters `A`. -/
def aStr (n : Nat) : String := String.mk (List.replicate n 'A')

/-- `n` copies of the one-character piece "A" (the character-level splits of
`aStr n`). -/
def repA (n : Nat) : List String := List.replicate n "A"

/-- The reader for the directory-walk counterexample: `bad.pdf` raises on
extraction, every other file reads fine. -/
def c2_fs : String → Except String String := fun p =>
  if p = "data/knowledge/bad.pdf" then Except.error "EOF marker not found"
  else Except.ok "good content"

/-- Initial process state for the directory-walk counterexample. -/
def c2_st : AppState := ⟨create_empty_vector_store 1, Disk.absent⟩

/-- The walk of the counterexample directory: the failing PDF first, a healthy
text file after it. -/
def c2_entries : List DirEntry :=
  [⟨"data/knowledge/bad.pdf", true⟩, ⟨"data/knowledge/good.txt", true⟩]

/-- The process state after the concrete ingestion of the C7 witness. -/
def c7_st1 : AppState :=
  ⟨⟨1, [([0], { text := "hi", source := "a.txt", chunk_id := 0 })]⟩,
   Disk.valid ⟨1, [([0], { text := "hi", source := "a.txt", chunk_id := 0 })]⟩⟩

/-- The reader for the chunking scenario: a text file holding exactly 2500
letters `A`. -/
def c4_fs : String → Except String String := fun _ => Except.ok (aStr 2500)

/-- The fragments the chunking scenario is expected to produce. -/
def c4_expected : List Fragment :=
  [{ text := aStr 1000, source := "bulk.txt", chunk_id := 0 },
   { text := aStr 1000, source := "bulk.txt", chunk_id := 1 },
   { text := aStr 900, source := "bulk.txt", chunk_id := 2 }]

end StudyRag

deriving instance DecidableEq for Except

namespace StudyRag

/-- The document-building loop written as a filtering map: each kept chunk
carries its pre-filter enumeration position. -/
theorem docs_loop_eq_filterMap (src : String) :
    ∀ l : List (Nat × String),
      docs_loop src l = l.filterMap
        (fun p => if pyStrip p.2 = "" then none
                  else some { text := p.2, source := src, chunk_id := p.1 })
  | [] => rfl
  | (i, c) :: rest => by
    by_cases h : pyStrip c = "" <;>
      simp [docs_loop, h, docs_loop_eq_filterMap src rest]

/-- The chunk ids produced by the document-building loop form a sublist of the
input positions. -/
theorem docs_loop_ids_sublist (src : String) :
    ∀ l : List (Nat × String),
      ((docs_loop src l).map Fragment.chunk_id).Sublist (l.map Prod.fst)
  | [] => List.Sublist.refl _
  | (i, c) :: rest => by
    by_cases h : pyStrip c = ""
    · simp only [docs_loop, if_pos h, List.map_cons]
      exact (docs_loop_ids_sublist src rest).cons _
    · simp only [docs_loop, if_neg h, List.map_cons]
      exact (docs_loop_ids_sublist src rest).cons₂ _

/-- C3: `_load_vector_store` reports absence both when the store directory does
not exist and when deserialization fails for any reason, and in either case
`get_vector_store` hands the caller a brand-new empty index rather than an
error. -/
theorem c3_load_reports_absence :
    load_vector_store Disk.absent = none ∧
    (∀ junk : Nat, load_vector_store (Disk.corrupt junk) = none) ∧
    (∀ dim : Nat, get_vector_store dim Disk.absent = create_empty_vector_store dim) ∧
    (∀ dim junk : Nat,
      get_vector_store dim (Disk.corrupt junk) = create_empty_vector_store dim) :=
  ⟨rfl, fun _ => rfl, fun _ => rfl, fun _ _ => rfl⟩

/-- C6: a search returns exactly `min k ntotal` results ordered ascending by
(squared) L2 distance, and searching an empty index returns an empty list
rather than an error. -/
theorem c6_search_contract (vs : VectorStore) (q : List ℚ) (k : Nat) :
    (search_index vs q k).length = min k vs.entries.length ∧
    List.Sorted (fun a b => a.2 ≤ b.2) (search_index vs q k) ∧
    (vs.entries.length = 0 → search_index vs q k = []) := by
  refine ⟨?_, ?_, ?_⟩
  · simp [search_index]
  · exact List.Pairwise.sublist (List.take_sublist _ _)
      (List.sorted_insertionSort (fun a b : Nat × ℚ => a.2 ≤ b.2) _)
  · intro h
    have he : vs.entries = [] := List.length_eq_zero.mp h
    simp [search_index, he, List.insertionSort]

/-- Witness for C6 at a concrete empty index. -/
theorem c6_search_contract_witness :
    (search_index (create_empty_vector_store 2) [0, 0] 5).length =
      min 5 (create_empty_vector_store 2).entries.length ∧
    search_index (create_empty_vector_store 2) [0, 0] 5 = [] :=
  ⟨(c6_search_contract (create_empty_vector_store 2) [0, 0] 5).1,
   (c6_search_contract (create_empty_vector_store 2) [0, 0] 5).2.2 rfl⟩

/-- C5: in every reachable index state all stored vectors have the creation
dimension, and an add whose batch contains a vector of a different length
fails as a whole: the error is raised and the process state (index and
persisted store) is left unchanged. -/
theorem c5_dimension_invariant (D : Nat) :
    (∀ vs, Reachable D vs → vs.d = D ∧ ∀ p ∈ vs.entries, p.1.length = D) ∧
    (∀ (embed : String → List ℚ) (st : AppState) (docs : List Fragment),
      (∃ doc ∈ docs, (embed doc.text).length ≠ st.vs.d) →
      (∃ e, add_documents_to_vector_store embed st docs true = Except.error e) ∧
      run_add_documents embed st docs = st) := by
  constructor
  · intro vs h
    induction h with
    | init => exact ⟨rfl, by simp [create_empty_vector_store]⟩
    | add vs batch vs' _ hadd ih =>
      simp only [add_vectors] at hadd
      split at hadd
      · rename_i hall
        cases hadd
        refine ⟨ih.1, ?_⟩
        intro p hp
        rcases List.mem_append.mp hp with hl | hr
        · exact ih.2 p hl
        · have := List.all_eq_true.mp hall p hr
          simp only [decide_eq_true_eq] at this
          exact this.trans ih.1
      · cases hadd
  · intro embed st docs hex
    rcases hex with ⟨doc, hmem, hlen⟩
    have hne : docs.isEmpty = false := by
      cases docs with
      | nil => cases hmem
      | cons a l => rfl
    have hall : (docs.map (fun doc => (embed doc.text, doc))).all
        (fun p => p.1.length = st.vs.d) = false := by
      rw [List.all_eq_false]
      exact ⟨(embed doc.text, doc), List.mem_map_of_mem _ hmem, by simpa using hlen⟩
    constructor
    · refine ⟨"assert d == x.shape[1]", ?_⟩
      simp [add_documents_to_vector_store, hne, add_vectors, hall]
    · simp [run_add_documents, add_documents_to_vector_store, hne, add_vectors, hall]

/-- Witness for C5: the empty index at dimension 3 is reachable and satisfies
the invariant; a one-document batch embedded at length 1 is rejected with the
state unchanged. -/
theorem c5_dimension_invariant_witness :
    ((create_empty_vector_store 3).d = 3 ∧
      ∀ p ∈ (create_empty_vector_store 3).entries, p.1.length = 3) ∧
    ((∃ e, add_documents_to_vector_store (fun _ => [1])
        ⟨create_empty_vector_store 3, Disk.absent⟩
        [{ text := "x", source := "s", chunk_id := 0 }] true = Except.error e) ∧
      run_add_documents (fun _ => [1]) ⟨create_empty_vector_store 3, Disk.absent⟩
        [{ text := "x", source := "s", chunk_id := 0 }] =
        ⟨create_empty_vector_store 3, Disk.absent⟩) :=
  ⟨(c5_dimension_invariant 3).1 (create_empty_vector_store 3) Reachable.init,
   (c5_dimension_invariant 3).2 (fun _ => [1]) ⟨create_empty_vector_store 3, Disk.absent⟩
     [{ text := "x", source := "s", chunk_id := 0 }]
     ⟨{ text := "x", source := "s", chunk_id := 0 }, by decide, by decide⟩⟩

/-- C9: a path whose (case-insensitively lowered) extension is not `.txt`,
`.md` or `.pdf` makes single-file ingestion fail with the unsupported-type
error carrying that extension, and no fragment of the file reaches the index. -/
theorem c9_unsupported_extension (embed : String → List ℚ)
    (fs : String → Except String String) (st : AppState) (path : String)
    (h : ¬ pyLower (path_suffix path) ∈ ([".txt", ".md", ".pdf"] : List String)) :
    load_file_as_documents fs path =
      Except.error (IngestError.unsupportedFileType (pyLower (path_suffix path))) ∧
    run_ingest embed fs st path = st := by
  simp only [List.mem_cons, List.not_mem_nil, or_false] at h
  push_neg at h
  have hcond : ¬ (pyLower (path_suffix path) = ".txt" ∨
      pyLower (path_suffix path) = ".md" ∨ pyLower (path_suffix path) = ".pdf") := by
    push_neg
    exact h
  constructor
  · simp [load_file_as_documents, hcond]
  · simp [run_ingest, ingest_path, load_file_as_documents, hcond]

/-- C1 counterexample: against a freshly created empty index the query does
return the sentinel answer and an empty retrieved list, but the claim's
"without invoking search (and hence without embedding the question)" is false:
the second component of `run_rag_query` counts the `similarity_search`
invocations (each embeds the question) and it is 1, not 0 — the source calls
search unconditionally and only tests the result list for emptiness. -/
theorem c1_counterexample :
    count_documents_in_vector_store
      (create_empty_vector_store 1) = 0 ∧
    (run_rag_query (fun _ => [0]) ⟨create_empty_vector_store 1, Disk.absent⟩
        "anything" 5).1 =
      { answer := emptyIndexSentinel, retrieved := [] } ∧
    ¬ (run_rag_query (fun _ => [0]) ⟨create_empty_vector_store 1, Disk.absent⟩
        "anything" 5).2 = 0 ∧
    (run_rag_query (fun _ => [0]) ⟨create_empty_vector_store 1, Disk.absent⟩
        "anything" 5).2 = 1 := by
  refine ⟨rfl, rfl, by decide, rfl⟩

/-- C1 as amended: a query against an index with `count() == 0` returns the
fixed empty-index sentinel answer and an empty retrieved list, but the code
reaches this by invoking search exactly once (embedding the question) and
finding the result list empty, not by checking the count first. -/
theorem c1_empty_index_query (embed : String → List ℚ) (st : AppState)
    (q : String) (k : Nat)
    (h : count_documents_in_vector_store st.vs = 0) :
    run_rag_query embed st q k =
      ({ answer := emptyIndexSentinel, retrieved := [] }, 1) := by
  have he : st.vs.entries = [] := List.length_eq_zero.mp h
  simp [run_rag_query, similarity_search, search_index, he, List.insertionSort]

/-- Witness for C1 at a concrete empty index. -/
theorem c1_empty_index_query_witness :
    count_documents_in_vector_store (create_empty_vector_store 4) = 0 ∧
    run_rag_query (fun _ => [0, 0, 0, 0]) ⟨create_empty_vector_store 4, Disk.absent⟩
        "what is this" 3 =
      ({ answer := emptyIndexSentinel, retrieved := [] }, 1) :=
  ⟨rfl, c1_empty_index_query (fun _ => [0, 0, 0, 0])
    ⟨create_empty_vector_store 4, Disk.absent⟩ "what is this" 3 rfl⟩

/-- C2 counterexample: in a directory walk where the first supported file
fails to read, `ingest_directory` returns that single propagated error with
the process state unchanged — the healthy sibling `good.txt` was never
ingested (the second conjunct shows ingesting it alone succeeds and adds a
fragment), and the result carries no aggregated per-file error list. -/
theorem c2_counterexample :
    ingest_directory (fun _ => [0]) c2_fs c2_st c2_entries =
      (Except.error
        (IngestError.readFailure "data/knowledge/bad.pdf" "EOF marker not found"),
       c2_st) ∧
    ingest_path (fun _ => [0]) c2_fs c2_st "data/knowledge/good.txt" =
      Except.ok (1,
        ⟨⟨1, [([0], { text := "good content", source := "good.txt", chunk_id := 0 })]⟩,
         Disk.valid
           ⟨1, [([0], { text := "good content", source := "good.txt", chunk_id := 0 })]⟩⟩) := by
  constructor
  · decide
  · decide

/-- C2 as amended: when ingesting one supported regular file of the walk
fails, the failure aborts the directory ingestion — the error propagates, the
remaining entries are not processed (the state returned is the state reached
before the failing file), and only a bare total (no per-file error list) is
ever returned. -/
theorem c2_failure_aborts_walk (embed : String → List ℚ)
    (fs : String → Except String String) (st : AppState) (e : DirEntry)
    (rest : List DirEntry) (err : IngestError)
    (hfile : e.is_file = true)
    (hsup : pyLower (path_suffix e.path) ∈ ([".txt", ".md", ".pdf"] : List String))
    (herr : ingest_path embed fs st e.path = Except.error err) :
    ingest_directory embed fs st (e :: rest) = (Except.error err, st) := by
  simp [ingest_directory, hfile, hsup, herr]

/-- Witness for C2 at the concrete counterexample walk. -/
theorem c2_failure_aborts_walk_witness :
    (⟨"data/knowledge/bad.pdf", true⟩ : DirEntry).is_file = true ∧
    pyLower (path_suffix "data/knowledge/bad.pdf") ∈
      ([".txt", ".md", ".pdf"] : List String) ∧
    ingest_directory (fun _ => [0]) c2_fs c2_st c2_entries =
      (Except.error
        (IngestError.readFailure "data/knowledge/bad.pdf" "EOF marker not found"),
       c2_st) :=
  ⟨rfl, by decide,
   c2_failure_aborts_walk (fun _ => [0]) c2_fs c2_st
     ⟨"data/knowledge/bad.pdf", true⟩ [⟨"data/knowledge/good.txt", true⟩]
     (IngestError.readFailure "data/knowledge/bad.pdf" "EOF marker not found")
     rfl (by decide) (by decide)⟩

/-- C10: the `chunk_id` of each produced fragment is its position in the raw
split output before whitespace-only chunks are discarded (the filtering-map
equation), so a file's chunk ids are strictly increasing; they are not
guaranteed contiguous — the last conjunct exhibits a split output whose
whitespace-only middle chunk is dropped, leaving the gapped id sequence
`[0, 2]`. -/
theorem c10_chunk_id_positions (src : String) (chunks : List String) :
    docs_loop src chunks.enum = chunks.enum.filterMap
      (fun p => if pyStrip p.2 = "" then none
                else some { text := p.2, source := src, chunk_id := p.1 }) ∧
    List.Sorted (· < ·) ((docs_loop src chunks.enum).map Fragment.chunk_id) ∧
    (docs_loop "notes.md" ["a", " ", "b"].enum).map Fragment.chunk_id = [0, 2] := by
  refine ⟨docs_loop_eq_filterMap src chunks.enum, ?_, by decide⟩
  have hsub := docs_loop_ids_sublist src chunks.enum
  rw [List.enum_map_fst] at hsub
  exact List.Pairwise.sublist hsub (List.sorted_lt_range _)

/-- Witness for C9: the scenario `ingest_file("notes.docx")` fails with the
unsupported-type error carrying `.docx`, leaving the store untouched. -/
theorem c9_unsupported_extension_witness :
    load_file_as_documents (fun _ => Except.ok "text") "notes.docx" =
      Except.error (IngestError.unsupportedFileType ".docx") ∧
    run_ingest (fun _ => [0]) (fun _ => Except.ok "text")
      ⟨create_empty_vector_store 1, Disk.absent⟩ "notes.docx" =
      ⟨create_empty_vector_store 1, Disk.absent⟩ := by
  have h := c9_unsupported_extension (fun _ => [0]) (fun _ => Except.ok "text")
    ⟨create_empty_vector_store 1, Disk.absent⟩ "notes.docx" (by decide)
  have hsfx : pyLower (path_suffix "notes.docx") = ".docx" := by decide
  exact ⟨by rw [← hsfx]; exact h.1, h.2⟩

/-- A successful single-file ingestion with at least one document: the batch
passes the dimension check, is appended to the entries, and the updated index
is synchronously saved. -/
theorem ingest_path_ok (embed : String → List ℚ) (fs : String → Except String String)
    (st : AppState) (path : String) (docs : List Fragment)
    (hload : load_file_as_documents fs path = Except.ok docs)
    (hdim : ∀ doc ∈ docs, (embed doc.text).length = st.vs.d)
    (hne : ¬ docs = []) :
    ingest_path embed fs st path = Except.ok (docs.length,
      ⟨⟨st.vs.d, st.vs.entries ++ docs.map (fun doc => (embed doc.text, doc))⟩,
       Disk.valid
         ⟨st.vs.d, st.vs.entries ++ docs.map (fun doc => (embed doc.text, doc))⟩⟩) := by
  have hne' : docs.isEmpty = false := by
    cases docs with
    | nil => exact absurd rfl hne
    | cons a l => rfl
  have hall : (docs.map (fun doc => (embed doc.text, doc))).all
      (fun p => p.1.length = st.vs.d) = true := by
    rw [List.all_eq_true]
    intro p hp
    rcases List.mem_map.mp hp with ⟨doc, hd, rfl⟩
    simpa using hdim doc hd
  simp [ingest_path, hload, add_documents_to_vector_store, hne', add_vectors, hall,
    save_vector_store]

/-- Ingesting a file that yields no documents adds nothing and touches
neither the index nor the persisted store. -/
theorem ingest_path_empty (embed : String → List ℚ)
    (fs : String → Except String String) (st : AppState) (path : String)
    (hload : load_file_as_documents fs path = Except.ok []) :
    ingest_path embed fs st path = Except.ok (0, st) := by
  simp [ingest_path, hload, add_documents_to_vector_store]

/-- C7: from a disk-consistent state, a successful `ingest_path` leaves a
state in which any index mutation has been synchronously flushed to the
persisted store, and reloading the index from the persisted store yields the
same `doc_count` and the same results for every search (in particular the
top-1 result of any fixed query); disk consistency is preserved. -/
theorem c7_persist_roundtrip (D : Nat) (embed : String → List ℚ)
    (fs : String → Except String String) (st st' : AppState) (path : String)
    (n : Nat) (hcons : diskConsistent D st)
    (hok : ingest_path embed fs st path = Except.ok (n, st')) :
    (¬ st'.vs = st.vs → st'.disk = Disk.valid st'.vs) ∧
    count_documents_in_vector_store (get_vector_store D st'.disk) =
      count_documents_in_vector_store st'.vs ∧
    (∀ (q : List ℚ) (k : Nat),
      search_index (get_vector_store D st'.disk) q k = search_index st'.vs q k) ∧
    diskConsistent D st' := by
  simp only [ingest_path] at hok
  cases hld : load_file_as_documents fs path with
  | error e => rw [hld] at hok; cases hok
  | ok docs =>
    rw [hld] at hok
    simp only [add_documents_to_vector_store] at hok
    by_cases hne : docs.isEmpty
    · rw [if_pos hne] at hok
      cases hok
      have hre : get_vector_store D st.disk = st.vs := by
        rcases hcons with h | ⟨hvs, hdk⟩
        · rw [h]; rfl
        · rw [hvs]; simp [get_vector_store, hdk]
      exact ⟨fun h => absurd rfl h, by rw [hre], fun q k => by rw [hre], hcons⟩
    · rw [if_neg hne] at hok
      cases hav : add_vectors st.vs (docs.map (fun doc => (embed doc.text, doc))) with
      | error e => rw [hav] at hok; cases hok
      | ok vs' =>
        rw [hav] at hok
        cases hok
        exact ⟨fun _ => rfl, rfl, fun _ _ => rfl, Or.inl rfl⟩

/-- Witness for C7 at a concrete ingestion from the virgin state. -/
theorem c7_persist_roundtrip_witness :
    diskConsistent 1 ⟨create_empty_vector_store 1, Disk.absent⟩ ∧
    ingest_path (fun _ => [0]) (fun _ => Except.ok "hi")
      ⟨create_empty_vector_store 1, Disk.absent⟩ "data/knowledge/a.txt" =
      Except.ok (1, c7_st1) ∧
    count_documents_in_vector_store (get_vector_store 1 c7_st1.disk) =
      count_documents_in_vector_store c7_st1.vs :=
  ⟨Or.inr ⟨rfl, rfl⟩, by decide,
   (c7_persist_roundtrip 1 (fun _ => [0]) (fun _ => Except.ok "hi")
      ⟨create_empty_vector_store 1, Disk.absent⟩ c7_st1 "data/knowledge/a.txt" 1
      (Or.inr ⟨rfl, rfl⟩) (by decide)).2.1⟩

/-- C8: re-ingesting the identical unchanged file from an empty index performs
no deduplication: the first ingestion indexes one fragment per document, and
the second appends the same batch again under fresh internal ids, so the count
doubles. -/
theorem c8_reingest_doubles (D : Nat) (embed : String → List ℚ)
    (fs : String → Except String String) (path : String) (docs : List Fragment)
    (hload : load_file_as_documents fs path = Except.ok docs)
    (hdim : ∀ doc ∈ docs, (embed doc.text).length = D) :
    count_documents_in_vector_store
        (run_ingest embed fs ⟨create_empty_vector_store D, Disk.absent⟩ path).vs =
      docs.length ∧
    count_documents_in_vector_store
        (run_ingest embed fs
          (run_ingest embed fs ⟨create_empty_vector_store D, Disk.absent⟩ path) path).vs =
      2 * docs.length ∧
    (run_ingest embed fs
        (run_ingest embed fs ⟨create_empty_vector_store D, Disk.absent⟩ path) path).vs.entries =
      (run_ingest embed fs ⟨create_empty_vector_store D, Disk.absent⟩ path).vs.entries ++
        (run_ingest embed fs ⟨create_empty_vector_store D, Disk.absent⟩ path).vs.entries := by
  by_cases hne : docs = []
  · subst hne
    have h1 := ingest_path_empty embed fs ⟨create_empty_vector_store D, Disk.absent⟩ path hload
    simp only [run_ingest, h1]
    simp [count_documents_in_vector_store, create_empty_vector_store]
  · have h1 := ingest_path_ok embed fs ⟨create_empty_vector_store D, Disk.absent⟩ path docs
      hload (by simpa [create_empty_vector_store] using hdim) hne
    simp only [create_empty_vector_store] at h1
    have hrun1 : run_ingest embed fs ⟨create_empty_vector_store D, Disk.absent⟩ path =
        ⟨⟨D, docs.map (fun doc => (embed doc.text, doc))⟩,
         Disk.valid ⟨D, docs.map (fun doc => (embed doc.text, doc))⟩⟩ := by
      simp only [run_ingest, create_empty_vector_store, h1]
      simp
    have h2 := ingest_path_ok embed fs
      ⟨⟨D, docs.map (fun doc => (embed doc.text, doc))⟩,
       Disk.valid ⟨D, docs.map (fun doc => (embed doc.text, doc))⟩⟩ path docs
      hload (by simpa using hdim) hne
    have hrun2 : run_ingest embed fs
        ⟨⟨D, docs.map (fun doc => (embed doc.text, doc))⟩,
         Disk.valid ⟨D, docs.map (fun doc => (embed doc.text, doc))⟩⟩ path =
        ⟨⟨D, docs.map (fun doc => (embed doc.text, doc)) ++
             docs.map (fun doc => (embed doc.text, doc))⟩,
         Disk.valid ⟨D, docs.map (fun doc => (embed doc.text, doc)) ++
             docs.map (fun doc => (embed doc.text, doc))⟩⟩ := by
      simp only [run_ingest, h2]
    rw [hrun1, hrun2]
    refine ⟨by simp [count_documents_in_vector_store], ?_, rfl⟩
    simp [count_documents_in_vector_store, two_mul]

/-- Witness for C8 at a concrete one-fragment file. -/
theorem c8_reingest_doubles_witness :
    load_file_as_documents (fun _ => Except.ok "one\n\ntwo")
        "data/knowledge/b.txt" =
      Except.ok [{ text := "one\n\ntwo", source := "b.txt", chunk_id := 0 }] ∧
    count_documents_in_vector_store
        (run_ingest (fun _ => [1]) (fun _ => Except.ok "one\n\ntwo")
          (run_ingest (fun _ => [1]) (fun _ => Except.ok "one\n\ntwo")
            ⟨create_empty_vector_store 1, Disk.absent⟩ "data/knowledge/b.txt")
          "data/knowledge/b.txt").vs =
      2 * ([{ text := "one\n\ntwo", source := "b.txt", chunk_id := 0 }] : List Fragment).length :=
  ⟨by decide,
   (c8_reingest_doubles 1 (fun _ => [1]) (fun _ => Except.ok "one\n\ntwo")
      "data/knowledge/b.txt" [{ text := "one\n\ntwo", source := "b.txt", chunk_id := 0 }]
      (by decide) (by decide)).2.1⟩

/-- Dropping leading whitespace leaves a run of `A`s unchanged. -/
theorem dropWhile_ws_repChar (n : Nat) :
    List.dropWhile Char.isWhitespace (List.replicate n 'A') = List.replicate n 'A' := by
  cases n with
  | zero => rfl
  | succ m =>
    rw [List.replicate_succ, List.dropWhile_cons, if_neg (by decide)]

/-- Stripping a run of `A`s is the identity. -/
theorem pyStrip_aStr (n : Nat) : pyStrip (aStr n) = aStr n := by
  simp only [pyStrip, aStr]
  rw [dropWhile_ws_repChar, List.reverse_replicate, dropWhile_ws_repChar,
    List.reverse_replicate]

/-- A run of `A`s is a nonempty string when `n` is positive. -/
theorem aStr_ne_empty (n : Nat) (h : 0 < n) : ¬ aStr n = "" := by
  intro hc
  have hdata : (aStr n).data = String.data "" := by rw [hc]
  rw [show (aStr n).data = List.replicate n 'A' from rfl,
    show String.data "" = [] from rfl] at hdata
  have := congrArg List.length hdata
  simp at this
  omega

/-- Joining character-level pieces with the empty separator concatenates them. -/
theorem pyJoin_repA : ∀ n, pyJoin "" (repA n) = aStr n
  | 0 => rfl
  | 1 => rfl
  | (n + 2) => by
    have ih := pyJoin_repA (n + 1)
    have ihdata := congrArg String.data ih
    simp only [pyJoin, repA, aStr] at ihdata ⊢
    rw [show (n + 2) = (n + 1) + 1 from rfl, List.replicate_succ (n := n + 1),
      List.replicate_succ (n := n)]
    rw [List.intersperse_cons_cons]
    simp only [List.map_cons, List.flatten_cons]
    rw [← List.replicate_succ (n := n)]
    rw [ihdata]
    rfl

/-- The splitter's join of a nonempty run of `A` pieces produces the
concatenated fragment. -/
theorem join_docs_repA (n : Nat) (h : 0 < n) :
    join_docs (repA n) "" = some (aStr n) := by
  simp only [join_docs, pyJoin_repA, pyStrip_aStr]
  rw [if_neg (aStr_ne_empty n h)]

set_option maxRecDepth 10000 in
/-- The overlap-popping loop on a uniform window of one-character pieces stops
exactly at the overlap budget of 200 characters. -/
theorem popOverlap_repA : ∀ k w, w = 200 + k →
    popOverlap 1000 200 0 1 (repA w) w = (repA 200, 200)
  | 0, w, hw => by
    subst hw
    decide
  | (k + 1), w, hw => by
    have hrec := popOverlap_repA k (200 + k) rfl
    rw [repA] at hrec
    subst hw
    conv_lhs => rw [repA, show (200 + (k + 1)) = (200 + k) + 1 from rfl,
      List.replicate_succ]
    rw [popOverlap, if_pos (Or.inl (by omega))]
    simp only [ite_self, show "A".length = 1 from rfl]
    rw [show (200 + k) + 1 - (1 + 0) = 200 + k from by omega]
    exact hrec

/-- One merge step below the chunk budget just extends the window. -/
theorem mergeStep_push (docs : List String) (w : Nat) (h : w + 1 ≤ 1000) :
    mergeStep 1000 200 "" (docs, repA w, w) "A" = (docs, repA (w + 1), w + 1) := by
  simp only [mergeStep, show "A".length = 1 from rfl,
    show ("" : String).length = 0 from rfl, ite_self, Nat.add_zero]
  rw [if_neg (by omega)]
  simp only [repA, ← List.replicate_succ']

set_option maxRecDepth 4000 in
/-- One merge step at the full 1000-character window emits the merged fragment,
slides the 200-character overlap and appends the incoming piece. -/
theorem mergeStep_emit (docs : List String) :
    mergeStep 1000 200 "" (docs, repA 1000, 1000) "A" =
      (docs ++ [aStr 1000], repA 201, 201) := by
  have hne : (repA 1000).isEmpty = false := by
    rw [repA, show (1000 : Nat) = 999 + 1 from rfl, List.replicate_succ]
    rfl
  simp only [mergeStep, show "A".length = 1 from rfl,
    show ("" : String).length = 0 from rfl, ite_self, Nat.add_zero, hne]
  rw [if_pos (by omega)]
  simp only [Bool.false_eq_true, if_false]
  rw [join_docs_repA 1000 (by omega), popOverlap_repA 800 1000 (by omega)]
  simp only [repA, ← List.replicate_succ']

/-- Folding merge steps over a run of one-character pieces that fits in the
remaining chunk budget just fills the window. -/
theorem foldl_mergeStep_fill : ∀ (m : Nat) (docs : List String) (w : Nat),
    w + m ≤ 1000 →
    List.foldl (mergeStep 1000 200 "") (docs, repA w, w) (repA m) =
      (docs, repA (w + m), w + m)
  | 0, docs, w, _ => by simp [repA]
  | (m + 1), docs, w, h => by
    have hstep := mergeStep_push docs w (by omega)
    have hrest := foldl_mergeStep_fill m docs (w + 1) (by omega)
    simp only [repA] at hstep hrest ⊢
    rw [List.replicate_succ, List.foldl_cons, hstep, hrest,
      show w + 1 + m = w + (m + 1) from by omega]

set_option maxRecDepth 4000 in
/-- The merge of 2500 one-character pieces at chunk size 1000 and overlap 200:
two full 1000-character fragments and a trailing 900-character fragment. -/
theorem merge_splits_repA_2500 :
    merge_splits 1000 200 (repA 2500) "" = [aStr 1000, aStr 1000, aStr 900] := by
  have hsplit : repA 2500 =
      (((repA 1000 ++ ["A"]) ++ repA 799) ++ ["A"]) ++ repA 699 := by
    rw [show (["A"] : List String) = repA 1 from rfl]
    simp only [repA]
    rw [← List.replicate_add, ← List.replicate_add, ← List.replicate_add,
      ← List.replicate_add]
  have s1 : List.foldl (mergeStep 1000 200 "") ([], [], 0) (repA 1000) =
      ([], repA 1000, 1000) := foldl_mergeStep_fill 1000 [] 0 (by omega)
  have s2 : List.foldl (mergeStep 1000 200 "") ([], repA 1000, 1000) ["A"] =
      ([aStr 1000], repA 201, 201) := by
    rw [List.foldl_cons, List.foldl_nil, mergeStep_emit []]
    rfl
  have s3 : List.foldl (mergeStep 1000 200 "") ([aStr 1000], repA 201, 201)
      (repA 799) = ([aStr 1000], repA 1000, 1000) :=
    foldl_mergeStep_fill 799 [aStr 1000] 201 (by omega)
  have s4 : List.foldl (mergeStep 1000 200 "") ([aStr 1000], repA 1000, 1000)
      ["A"] = ([aStr 1000, aStr 1000], repA 201, 201) := by
    rw [List.foldl_cons, List.foldl_nil, mergeStep_emit [aStr 1000]]
    rfl
  have s5 : List.foldl (mergeStep 1000 200 "")
      ([aStr 1000, aStr 1000], repA 201, 201) (repA 699) =
      ([aStr 1000, aStr 1000], repA 900, 900) :=
    foldl_mergeStep_fill 699 [aStr 1000, aStr 1000] 201 (by omega)
  rw [merge_splits, hsplit, List.foldl_append, List.foldl_append,
    List.foldl_append, List.foldl_append, s1, s2, s3, s4, s5,
    join_docs_repA 900 (by omega)]
  rfl


/-- Filtering with a predicate the repeated element satisfies leaves a
replicated list unchanged. -/
theorem filter_true_replicate {p : String → Bool} (h : p "A" = true) :
    ∀ n, (List.replicate n "A").filter p = List.replicate n "A"
  | 0 => rfl
  | n + 1 => by
    rw [List.replicate_succ, List.filter_cons, if_pos h,
      filter_true_replicate h n, ← List.replicate_succ]

/-- Character-level splitting of the 2500-`A` text yields 2500 one-character
pieces. -/
theorem split_keeping_empty_sep :
    split_text_keeping_sep (aStr 2500) "" = repA 2500 := by
  rw [split_text_keeping_sep, if_pos (rfl : ("" : String) = "")]
  rw [show (aStr 2500).data = List.replicate 2500 'A' from rfl]
  rw [List.map_replicate, show String.mk ['A'] = "A" from rfl]
  rw [filter_true_replicate (by decide) 2500, repA]

set_option maxRecDepth 100000 in
/-- None of the three textual separators occurs in the 2500-`A` text, so the
separator-selection loop falls through to character-level splitting. -/
theorem choose_sep_aStr2500 :
    choose_sep (aStr 2500) SEPARATORS = ("", []) := by
  decide

/-- The piece-processing loop only collects when every piece is under the
chunk size. -/
theorem split_loop_collect (cs co : Nat) (recurse : String → List String)
    (noNew : Bool) : ∀ (l : List String) (acc : List String × List String),
    (∀ s ∈ l, s.length < cs) →
    split_loop cs co recurse noNew l acc = (acc.1, acc.2 ++ l)
  | [], acc, _ => by simp [split_loop]
  | s :: rest, acc, h => by
    rw [split_loop, if_pos (h s (List.mem_cons_self s rest))]
    rw [split_loop_collect cs co recurse noNew rest (acc.1, acc.2 ++ [s])
      (fun x hx => h x (List.mem_cons_of_mem s hx))]
    simp

/-- The full splitter on the 2500-`A` single-paragraph text: three fragments
of 1000, 1000 and 900 characters. -/
theorem split_text_aStr2500 :
    split_text (aStr 2500) = [aStr 1000, aStr 1000, aStr 900] := by
  rw [split_text, show SEPARATORS.length + 1 = 4 + 1 from rfl]
  rw [split_text_rec, choose_sep_aStr2500]
  rw [show (("", ([] : List String))).1 = "" from rfl,
    show (("", ([] : List String))).2 = ([] : List String) from rfl]
  rw [show ([] : List String).isEmpty = true from rfl]
  rw [show CHUNK_SIZE = 1000 from rfl, show CHUNK_OVERLAP = 200 from rfl]
  rw [split_keeping_empty_sep]
  have hcollect : split_loop 1000 200 (split_text_rec 1000 200 4 []) true
      (repA 2500) ([], []) = ([], repA 2500) := by
    rw [split_loop_collect 1000 200 (split_text_rec 1000 200 4 []) true
      (repA 2500) ([], []) (fun s hs => by
        simp only [repA, List.mem_replicate] at hs
        rw [hs.2]
        decide)]
    simp
  rw [hcollect, split_finish]
  rw [show (([] : List String), repA 2500).2 = repA 2500 from rfl,
    show (([] : List String), repA 2500).1 = ([] : List String) from rfl]
  rw [show (repA 2500).isEmpty = false from by
    rw [repA, show (2500 : Nat) = 2499 + 1 from rfl, List.replicate_succ]
    rfl]
  rw [if_neg (by simp)]
  rw [merge_splits_repA_2500]
  rfl

/-- Loading the 2500-`A` text file produces exactly the three expected
fragments. -/
theorem c4_load_file :
    load_file_as_documents c4_fs "data/knowledge/bulk.txt" =
      Except.ok c4_expected := by
  have hsfx : pyLower (path_suffix "data/knowledge/bulk.txt") = ".txt" := by
    decide
  have hrel : relative_to_knowledge "data/knowledge/bulk.txt" = "bulk.txt" := by
    decide
  rw [load_file_as_documents, hsfx, if_pos (Or.inl rfl)]
  rw [show c4_fs "data/knowledge/bulk.txt" = Except.ok (aStr 2500) from rfl]
  show Except.ok (docs_loop (relative_to_knowledge "data/knowledge/bulk.txt")
    (split_text (aStr 2500)).enum) = Except.ok c4_expected
  rw [hrel, split_text_aStr2500]
  rw [show ([aStr 1000, aStr 1000, aStr 900].enum) =
    [(0, aStr 1000), (1, aStr 1000), (2, aStr 900)] from rfl]
  rw [docs_loop, pyStrip_aStr, if_neg (aStr_ne_empty 1000 (by omega))]
  rw [docs_loop, pyStrip_aStr, if_neg (aStr_ne_empty 1000 (by omega))]
  rw [docs_loop, pyStrip_aStr, if_neg (aStr_ne_empty 900 (by omega))]
  rw [docs_loop]
  rfl


set_option maxRecDepth 8000 in
/-- C4: loading the text file whose content is exactly "A"*2500 (one paragraph,
no separators) with chunk size 1000 and overlap 200 yields exactly 3 fragments,
of lengths 1000, 1000 and 900 (each at most 1000 characters), with chunk ids
0, 1, 2 and source equal to the file path relative to the knowledge root; each
fragment after the first begins with the last 200 characters of its
predecessor. -/
theorem c4_chunking_scenario :
    load_file_as_documents c4_fs "data/knowledge/bulk.txt" =
      Except.ok c4_expected ∧
    c4_expected.length = 3 ∧
    c4_expected.map (fun d => d.text.length) = [1000, 1000, 900] ∧
    (c4_expected.map (fun d => d.text.length)).all (fun n => n ≤ 1000) = true ∧
    c4_expected.map Fragment.chunk_id = [0, 1, 2] ∧
    c4_expected.map Fragment.source =
      [relative_to_knowledge "data/knowledge/bulk.txt",
       relative_to_knowledge "data/knowledge/bulk.txt",
       relative_to_knowledge "data/knowledge/bulk.txt"] ∧
    (c4_expected.getD 1 defaultEntry.2).text.data.take 200 =
      (c4_expected.getD 0 defaultEntry.2).text.data.drop
        ((c4_expected.getD 0 defaultEntry.2).text.length - 200) ∧
    (c4_expected.getD 2 defaultEntry.2).text.data.take 200 =
      (c4_expected.getD 1 defaultEntry.2).text.data.drop
        ((c4_expected.getD 1 defaultEntry.2).text.length - 200) :=
  ⟨c4_load_file, by decide, by decide, by decide, by decide, by decide,
   by decide, by decide⟩

end StudyRag
